import Mathlib

/-!
# Verification of the Multi-Strategy trade bot core

A shallow embedding, in Lean 4, of the parts of the trading bot that the
specification's central claims are about: the position sizer, the risk
manager, the signal processor (KIV state machine), the cooldown manager,
the exit monitor, the reconciler, the sentinel health roll-up, the
executor, and the cycle orchestrator.

Conventions of the embedding:
* Python floats are modelled as rationals (`ℚ`).
* UTC timestamps are modelled as rational seconds; the `YYYYMMDDHH`
  hour bucket used by signal ids is carried alongside as a string.
* SQLite tables become Lean lists of structure values; `UPDATE ... WHERE`
  becomes `List.map` with a condition, `DELETE` becomes `List.filter`,
  `INSERT` becomes an append, and `fetchone` becomes `List.find?`.
* Calls to the broker / market-data APIs (out of scope for the spec) are
  abstracted as explicit function parameters.
-/

namespace TradeBot

/-- A UTC instant: rational seconds plus the `YYYYMMDDHH` bucket string
that `datetime.utcnow().strftime("%Y%m%d%H")` would produce for it. -/
structure Time where
  secs : ℚ
  bucket : String
deriving DecidableEq, Repr

/-! ## Position sizer (`core/risk/sizer.py`) -/

/-- Result dictionary of `PositionSizer.calculate_shares`. -/
structure SizingResult where
  shares : ℤ
  notional_value : ℚ
  base_allocation : ℚ
  confidence_multiplier : ℚ
  volatility_multiplier : ℚ
  final_allocation : ℚ
deriving DecidableEq, Repr

/-- `PositionSizer.calculate_shares`.  `atr = some 0` falls into the
`else` branch because Python's `if atr and price > 0` treats `0.0` as
falsy. -/
def calculate_shares (max_per_trade : ℚ) (price : ℚ)
    (confidence_score : ℚ) (atr : Option ℚ)
    (available_capital : ℚ) : SizingResult :=
  let base_allocation := min max_per_trade (available_capital * (2/10))
  let confidence_multiplier := confidence_score / 100
  let confidence_allocation := base_allocation * confidence_multiplier
  let volatility_multiplier :=
    match atr with
    | some a =>
        if a ≠ 0 ∧ 0 < price then
          let atr_pct := a / price
          if atr_pct > 5/100 then 1/2
          else if atr_pct < 1/100 then 12/10
          else 1
        else 1
    | none => 1
  let final_allocation :=
    min (confidence_allocation * volatility_multiplier) max_per_trade
  let shares : ℤ := if 0 < price then ⌊final_allocation / price⌋ else 0
  let actual_value : ℚ := if 0 < price then shares * price else 0
  { shares := shares
    notional_value := actual_value
    base_allocation := base_allocation
    confidence_multiplier := confidence_multiplier
    volatility_multiplier := volatility_multiplier
    final_allocation := final_allocation }

/-- `PositionSizer.calculate_risk_amount`. -/
def calculate_risk_amount (entry_price stop_loss : ℚ) (shares : ℤ) : ℚ :=
  if shares ≤ 0 then 0 else |entry_price - stop_loss| * shares

/-- `PositionSizer.validate_risk` (first component of the returned pair). -/
def validate_risk (risk_per_trade_pct : ℚ) (entry_price stop_loss : ℚ)
    (shares : ℤ) (total_capital : ℚ) : Bool :=
  let risk_amount := calculate_risk_amount entry_price stop_loss shares
  let risk_pct := risk_amount / total_capital
  if risk_pct > risk_per_trade_pct * 2 then false
  else if risk_amount > total_capital * (5/100) then false
  else true

/-- The claim's sizing formula, written exactly as the specification words
it: `shares = floor(min(min(max_per_trade, capital × 0.2) ×
(confidence/100) × vol_mult, max_per_trade) / price)` with `vol_mult`
read off `atr/price` whenever `atr` is present. -/
def spec_shares (max_per_trade : ℚ) (price : ℚ) (confidence_score : ℚ)
    (atr : Option ℚ) (available_capital : ℚ) : ℤ :=
  let vol_mult :=
    match atr with
    | some a =>
        if a / price > 5/100 then (1/2 : ℚ)
        else if a / price < 1/100 then 12/10
        else 1
    | none => 1
  ⌊min (min max_per_trade (available_capital * (2/10))
        * (confidence_score / 100) * vol_mult) max_per_trade / price⌋

/-! ## Cooldown manager (`core/signal/cooldown.py`) and
signal processor (`core/signal/processor.py`)

Both components operate on the `signals` table. -/

/-- `signals.status` values occurring in the code (`COOLDOWN` rows are
inserted by `CooldownManager.set_cooldown` when no row exists). -/
inductive SignalStatus
  | KIV | CONFIRMED | EXECUTED | EXPIRED | REJECTED | COOLDOWN
deriving DecidableEq, Repr

/-- A row of the `signals` table. -/
structure SignalRow where
  signal_id : String
  ticker : String
  strategy : String
  trigger_time : ℚ
  trigger_price : ℚ
  rebound_bottom : ℚ
  go_in_price : ℚ
  profit_target : ℚ
  stop_loss : ℚ
  confidence_score : ℚ
  status : SignalStatus
  cooldown_until : Option ℚ
deriving DecidableEq, Repr

/-- `CooldownManager.is_on_cooldown` (first component): a row for the
pair exists whose `cooldown_until` is in the future. -/
def is_on_cooldown (signals : List SignalRow) (now : ℚ)
    (ticker strategy : String) : Bool :=
  signals.any fun r =>
    decide (r.ticker = ticker) && decide (r.strategy = strategy) &&
      match r.cooldown_until with
      | some c => decide (now < c)
      | none => false

/-- `SignalProcessor._generate_signal_id`. -/
def generate_signal_id (ticker strategy : String) (now : Time) : String :=
  ticker ++ "_" ++ strategy ++ "_" ++ now.bucket

/-- Result of `SignalProcessor.add_to_kiv`. -/
inductive AddResult
  | rejected_cooldown (cooldown_until : Option ℚ)
  | already_exists (signal_status : SignalStatus)
  | added (signal_id : String) (confidence : ℚ)
deriving DecidableEq, Repr

/-- The duplicate check of `add_to_kiv`: a row with the same `signal_id`,
or for the same `(ticker, strategy)` with status `KIV`/`CONFIRMED`. -/
def kiv_duplicate (signal_id ticker strategy : String)
    (r : SignalRow) : Bool :=
  decide (r.signal_id = signal_id) ||
    (decide (r.ticker = ticker) && decide (r.strategy = strategy) &&
      (decide (r.status = .KIV) || decide (r.status = .CONFIRMED)))

/-- The KIV row `add_to_kiv` inserts. -/
def kiv_row (now : Time) (ticker strategy : String)
    (trigger_price rebound_bottom go_in_price profit_target
      stop_loss confidence : ℚ) : SignalRow :=
  { signal_id := generate_signal_id ticker strategy now
    ticker := ticker
    strategy := strategy
    trigger_time := now.secs
    trigger_price := trigger_price
    rebound_bottom := rebound_bottom
    go_in_price := go_in_price
    profit_target := profit_target
    stop_loss := stop_loss
    confidence_score := confidence
    status := .KIV
    cooldown_until := none }

/-- `SignalProcessor.add_to_kiv`.  The confidence calculator is pure and
out of the claims' scope; its computed score is passed in as
`confidence`.  Returns the result dict and the new `signals` table. -/
def add_to_kiv (signals : List SignalRow) (now : Time)
    (ticker strategy : String)
    (trigger_price rebound_bottom go_in_price profit_target stop_loss : ℚ)
    (confidence : ℚ) : AddResult × List SignalRow :=
  if is_on_cooldown signals now.secs ticker strategy then
    (.rejected_cooldown none, signals)
  else
    let signal_id := generate_signal_id ticker strategy now
    match signals.find? (kiv_duplicate signal_id ticker strategy) with
    | some existing => (.already_exists existing.status, signals)
    | none =>
        (.added signal_id confidence,
          signals ++ [kiv_row now ticker strategy trigger_price
            rebound_bottom go_in_price profit_target stop_loss
            confidence])

/-- Result of `SignalProcessor.check_confirmation`. -/
inductive ConfirmResult
  | no_kiv_signal
  | expired
  | confirmed (signal_id : String)
      (go_in_price profit_target stop_loss confidence : ℚ)
  | not_confirmed
deriving DecidableEq, Repr

/-- The `SELECT ... WHERE status = 'KIV' ORDER BY trigger_time DESC
LIMIT 1` of `check_confirmation`: the matching row with the greatest
`trigger_time` (the earlier row wins a tie). -/
def pick_newer (best : Option SignalRow) (r : SignalRow) :
    Option SignalRow :=
  match best with
  | none => some r
  | some b => if b.trigger_time < r.trigger_time then some r else some b

/-- The KIV rows of the pair, out of which `check_confirmation` takes
the newest. -/
def kiv_rows (signals : List SignalRow)
    (ticker strategy : String) : List SignalRow :=
  signals.filter fun r =>
    r.ticker = ticker ∧ r.strategy = strategy ∧ r.status = .KIV

def newest_kiv (signals : List SignalRow)
    (ticker strategy : String) : Option SignalRow :=
  (kiv_rows signals ticker strategy).foldl pick_newer none

/-- `kiv_timeout_hours` (`SignalProcessor.__init__`). -/
def kiv_timeout_hours : ℚ := 4

/-- `confirmed_timeout_hours` (`SignalProcessor.__init__`). -/
def confirmed_timeout_hours : ℚ := 2

/-- `UPDATE signals SET status = ? WHERE signal_id = ?`. -/
def set_status_by_id (signals : List SignalRow) (signal_id : String)
    (st : SignalStatus) : List SignalRow :=
  signals.map fun r =>
    if r.signal_id = signal_id then { r with status := st } else r

/-- `SignalProcessor.check_confirmation`: expire the newest KIV row when
its age strictly exceeds `kiv_timeout_hours`, else confirm it when the
price has bounced 1% above `rebound_bottom`. -/
def check_confirmation (signals : List SignalRow) (now : ℚ)
    (ticker strategy : String) (current_price : ℚ) :
    ConfirmResult × List SignalRow :=
  match newest_kiv signals ticker strategy with
  | none => (.no_kiv_signal, signals)
  | some row =>
      let age_hours := (now - row.trigger_time) / 3600
      if age_hours > kiv_timeout_hours then
        (.expired, set_status_by_id signals row.signal_id .EXPIRED)
      else if 0 < row.rebound_bottom ∧
          row.rebound_bottom * (101/100) ≤ current_price then
        (.confirmed row.signal_id row.go_in_price row.profit_target
            row.stop_loss row.confidence_score,
          set_status_by_id signals row.signal_id .CONFIRMED)
      else
        (.not_confirmed, signals)

/-- `SignalProcessor.mark_executed`: unconditional
`UPDATE signals SET status = 'EXECUTED' WHERE signal_id = ?`.
Returns whether a row was affected, and the new table. -/
def mark_executed (signals : List SignalRow) (signal_id : String) :
    Bool × List SignalRow :=
  (signals.any (fun r => r.signal_id = signal_id),
    set_status_by_id signals signal_id .EXECUTED)

/-- `SignalProcessor.reject_signal`: unconditional
`UPDATE signals SET status = 'REJECTED' WHERE signal_id = ?`.
The `reason` is only logged. -/
def reject_signal (signals : List SignalRow) (signal_id : String)
    (_reason : String) : Bool × List SignalRow :=
  (signals.any (fun r => r.signal_id = signal_id),
    set_status_by_id signals signal_id .REJECTED)

/-- `SignalProcessor.get_confirmed_signals`: first expire CONFIRMED rows
older than the cutoff, then return CONFIRMED rows with enough
confidence.  Only the table transformation matters for the claims. -/
def get_confirmed_signals_expire (signals : List SignalRow)
    (now : ℚ) : List SignalRow :=
  let cutoff := now - confirmed_timeout_hours * 3600
  signals.map fun r =>
    if r.status = .CONFIRMED ∧ r.trigger_time < cutoff then
      { r with status := .EXPIRED }
    else r

/-! ## Executor (`core/execution/executor.py`)

The Alpaca client is abstracted: `submit` maps an order request to the
broker's view of the submitted order.  `ticket_id` generation is random
in the source (`TKT-` + 8 hex); the generated id is a parameter here. -/

/-- Python's `str.upper()` for the ASCII order-type strings the
executor compares. -/
def py_upper (s : String) : String :=
  ⟨s.data.map Char.toUpper⟩

/-- An order request as handed to `client.submit_order`. -/
structure OrderReq where
  symbol : String
  qty : ℚ
  is_buy : Bool
  is_market : Bool
  limit_price : Option ℚ
deriving DecidableEq, Repr

/-- The broker's reply for a submitted order (`Order` fields read by the
executor). -/
structure BrokerOrder where
  id : String
  filled_at : Bool
  filled_avg_price : Option ℚ
  filled_qty : ℚ
  canceled_at : Bool
  rejected_at : Bool
deriving DecidableEq, Repr

/-- A row of the `execution_quality` table
(`SlippageTracker.record_execution`). -/
structure ExecRecord where
  ticket_id : String
  ticker : String
  expected_price : ℚ
  actual_price : ℚ
  expected_quantity : ℚ
  actual_quantity : ℚ
  order_type : String
  side : String
deriving DecidableEq, Repr

/-- An entry of the executor's in-memory `pending_orders` map. -/
structure PendingInfo where
  ticket_id : String
  ticker : String
  expected_price : ℚ
  quantity : ℚ
  order_type : String
deriving DecidableEq, Repr

/-- Result dict of `execute_entry` / `execute_exit`. -/
inductive ExecResult
  | filled (ticket_id : String) (fill_price : ℚ) (quantity : ℚ)
  | pending (ticket_id order_id : String)
  | failed (ticket_id : String) (error : String)
deriving DecidableEq, Repr

/-- Everything a call to `execute_exit` does: its returned result, the
orders it submitted to the broker, the new `pending_orders` map, and the
`execution_quality` rows it recorded. -/
structure ExitOutcome where
  result : ExecResult
  submitted : List OrderReq
  pending : List (String × PendingInfo)
  records : List ExecRecord
deriving DecidableEq, Repr

/-- `Executor.execute_exit`.  `submit` is the broker; `pending` is the
in-memory map before the call; `ticket_id` stands for the freshly
generated `TKT-` id.  A LIMIT exit without a `limit_price` raises
`ValueError`, which the enclosing `except` turns into a FAILED result
before any broker call. -/
def execute_exit (submit : OrderReq → BrokerOrder)
    (pending : List (String × PendingInfo)) (ticket_id : String)
    (ticker : String) (quantity : ℚ) (order_type : String)
    (limit_price : Option ℚ) (reason : String) : ExitOutcome :=
  if py_upper order_type = "MARKET" ∨ reason = "STOP_LOSS" then
    let req : OrderReq :=
      { symbol := ticker, qty := quantity, is_buy := false
        is_market := true, limit_price := none }
    let order := submit req
    let fill_price := order.filled_avg_price.getD 0
    { result := .filled ticket_id fill_price quantity
      submitted := [req]
      pending := pending
      records := [{ ticket_id := ticket_id, ticker := ticker
                    expected_price := limit_price.getD fill_price
                    actual_price := fill_price
                    expected_quantity := quantity
                    actual_quantity := quantity
                    order_type := order_type, side := "SELL" }] }
  else
    match limit_price with
    | none =>
        { result := .failed ticket_id "Limit price required for LIMIT exit"
          submitted := [], pending := pending, records := [] }
    | some lp =>
        let req : OrderReq :=
          { symbol := ticker, qty := quantity, is_buy := false
            is_market := false, limit_price := some lp }
        let order := submit req
        if order.filled_at then
          let fill_price := order.filled_avg_price.getD 0
          { result := .filled ticket_id fill_price quantity
            submitted := [req]
            pending := pending
            records := [{ ticket_id := ticket_id, ticker := ticker
                          expected_price := lp
                          actual_price := fill_price
                          expected_quantity := quantity
                          actual_quantity := quantity
                          order_type := order_type, side := "SELL" }] }
        else
          { result := .pending ticket_id order.id
            submitted := [req]
            pending := pending ++
              [(order.id,
                { ticket_id := ticket_id, ticker := ticker
                  expected_price := lp, quantity := quantity
                  order_type := "LIMIT_EXIT" })]
            records := [] }

/-! ## Exit monitor (`core/execution/monitor.py`) -/

/-- `positions.status` values. -/
inductive PosStatus
  | OPEN | CLOSING | CLOSED
deriving DecidableEq, Repr

/-- A row of the `positions` table. -/
structure PositionRow where
  ticket_id : String
  ticker : String
  strategy : String
  entry_time : ℚ
  entry_price : ℚ
  quantity : ℚ
  current_price : Option ℚ
  stop_loss : ℚ
  status : PosStatus
  exit_signal : Option String
deriving DecidableEq, Repr

/-- A row of the `trade_history` table. -/
structure TradeHistoryRow where
  exit_time : ℚ
  ticker : String
  strategy : String
  entry_price : ℚ
  exit_price : ℚ
  quantity : ℚ
  pnl_percent : ℚ
  win_loss : String
  exit_reason : String
  ticket_id : String
deriving DecidableEq, Repr

/-- The persistent tables the exit monitor touches, plus the
`execution_quality` rows recorded through the executor. -/
structure MonitorState where
  positions : List PositionRow
  trade_history : List TradeHistoryRow
  signals : List SignalRow
  exec_quality : List ExecRecord
deriving DecidableEq, Repr

/-- `ExitMonitor._mark_position_closed`: look the position up by
`ticket_id`, append a `trade_history` row, delete the position.  The
`signals` table (where cooldowns live) is untouched. -/
def mark_position_closed (st : MonitorState) (now : ℚ)
    (ticket_id : String) (exit_price : ℚ) (exit_reason : String) :
    Bool × MonitorState :=
  match st.positions.find? (fun p => p.ticket_id = ticket_id) with
  | none => (false, st)
  | some p =>
      let pnl_dollar := (exit_price - p.entry_price) * p.quantity
      let pnl_percent := (exit_price - p.entry_price) / p.entry_price
      let win_loss := if 0 < pnl_dollar then "WIN" else "LOSS"
      let hist : TradeHistoryRow :=
        { exit_time := now, ticker := p.ticker, strategy := p.strategy
          entry_price := p.entry_price, exit_price := exit_price
          quantity := p.quantity, pnl_percent := pnl_percent
          win_loss := win_loss, exit_reason := exit_reason
          ticket_id := ticket_id }
      (true,
        { st with
          trade_history := st.trade_history ++ [hist]
          positions :=
            st.positions.filter (fun q => ¬ q.ticket_id = ticket_id) })

/-- One triggered exit reported by `check_stop_losses`. -/
structure TriggeredExit where
  ticket_id : String
  ticker : String
  exit_price : ℚ
  reason : String
deriving DecidableEq, Repr

/-- The body of the `check_stop_losses` loop for one OPEN position. -/
def stop_loss_step (now : ℚ) (prices : String → Option ℚ)
    (submit : OrderReq → BrokerOrder)
    (acc : List TriggeredExit × MonitorState) (p : PositionRow) :
    List TriggeredExit × MonitorState :=
  let (triggered, st) := acc
  match prices p.ticker with
  | none => (triggered, st)
  | some current_price =>
      let loss_pct := (current_price - p.entry_price) / p.entry_price
      if loss_pct ≤ -p.stop_loss then
        let outcome := execute_exit submit [] ("TKT-X-" ++ p.ticket_id)
          p.ticker p.quantity "MARKET" none "STOP_LOSS"
        match outcome.result with
        | .filled _ fill_price _ =>
            let st :=
              { st with exec_quality := st.exec_quality ++ outcome.records }
            let (_, st) :=
              mark_position_closed st now p.ticket_id fill_price "STOP_LOSS"
            (triggered ++
              [{ ticket_id := p.ticket_id, ticker := p.ticker
                 exit_price := fill_price, reason := "STOP_LOSS" }], st)
        | _ => (triggered, st)
      else (triggered, st)

/-- `ExitMonitor.check_stop_losses`.  `prices` is the price cache /
fetcher; `submit` is the broker (market sells always fill here, as the
executor reports FILLED whenever `submit_order` does not raise).  For
each OPEN position whose loss reaches `-stop_loss`, a MARKET sell is
executed and the position archived.  No cooldown is ever written. -/
def check_stop_losses (st : MonitorState) (now : ℚ)
    (prices : String → Option ℚ) (submit : OrderReq → BrokerOrder) :
    List TriggeredExit × MonitorState :=
  let opens := st.positions.filter (fun p => p.status = .OPEN)
  opens.foldl (stop_loss_step now prices submit) ([], st)

/-! ## Ignore list (`core/risk/ignore.py`), daily limits
(`core/risk/limits.py`) and risk manager (`core/risk/manager.py`) -/

/-- A row of the `ignore_list` table. -/
structure IgnoreRow where
  ticker : String
  reason_code : String
  scope : String
  ttl_utc : ℚ
  backoff_level : ℕ
  retry_count : ℕ
deriving DecidableEq, Repr

/-- `IgnoreManager.is_ignored`: the first row for the ticker whose
`ttl_utc` is still in the future. -/
def is_ignored (ignore_list : List IgnoreRow) (now : ℚ)
    (ticker : String) : Option IgnoreRow :=
  ignore_list.find? (fun r => r.ticker = ticker ∧ now < r.ttl_utc)

/-- `LimitsManager.get_today_pnl`: realized P&L from today's
`trade_history` rows plus unrealized P&L over OPEN/CLOSING positions.
SQL sums skip NULL `current_price` terms, hence `getD 0`. -/
def get_today_pnl (hist : List TradeHistoryRow)
    (positions : List PositionRow) (midnight : ℚ) : ℚ × ℚ × ℚ :=
  let todays := hist.filter (fun h => midnight ≤ h.exit_time)
  let realized := (todays.map (fun h => h.exit_price * h.quantity)).sum
    - (todays.map (fun h => h.entry_price * h.quantity)).sum
  let opens := positions.filter
    (fun p => p.status = .OPEN ∨ p.status = .CLOSING)
  let unrealized :=
    (opens.map (fun p => (p.current_price.getD 0) * p.quantity)).sum
    - (opens.map (fun p => p.entry_price * p.quantity)).sum
  (realized, unrealized, realized + unrealized)

/-- `LimitsManager.can_trade`. -/
def limits_can_trade (daily_loss_limit daily_profit_cap : ℚ)
    (hist : List TradeHistoryRow) (positions : List PositionRow)
    (midnight : ℚ) : Bool × String :=
  let total := (get_today_pnl hist positions midnight).2.2
  if total ≤ -daily_loss_limit then (false, "DAILY_LOSS_LIMIT_HIT")
  else if daily_profit_cap ≤ total then (false, "DAILY_PROFIT_CAP_HIT")
  else (true, "OK")

/-- The tables and settings the risk manager reads. -/
structure RiskEnv where
  ignore_list : List IgnoreRow
  trade_history : List TradeHistoryRow
  positions : List PositionRow
  signals : List SignalRow
  total_capital : ℚ
  max_per_trade : ℚ
  daily_loss_limit : ℚ
  daily_profit_cap : ℚ
deriving DecidableEq, Repr

/-- `RiskManager.can_trade_symbol`: ignore list (scope must match this
strategy or `ALL`), then daily limits.  The source checks nothing else
— the position check is only a comment ("will be enhanced"). -/
def can_trade_symbol (env : RiskEnv) (now midnight : ℚ)
    (ticker strategy : String) : Bool × String :=
  let blocked :=
    match is_ignored env.ignore_list now ticker with
    | some info => decide (info.scope = strategy ∨ info.scope = "ALL")
    | none => false
  if blocked then (false, "IGNORED")
  else
    let limits := limits_can_trade env.daily_loss_limit
      env.daily_profit_cap env.trade_history env.positions midnight
    if limits.1 = false then (false, limits.2)
    else (true, "OK")

/-- `RiskManager.get_available_capital` — the source stub returns total
capital unchanged. -/
def get_available_capital (env : RiskEnv) : ℚ :=
  env.total_capital

/-- Result of `RiskManager.approve_trade`. -/
inductive ApproveResult
  | denied (reason : String)
  | approved (shares : ℤ) (notional_value : ℚ)
deriving DecidableEq, Repr

/-- `RiskManager.approve_trade`: `can_trade_symbol`, then sizing; deny
only when sizing yields zero shares.  `validate_risk` is never called
and no cooldown or open-position lookup happens. -/
def approve_trade (env : RiskEnv) (now midnight : ℚ) (ticker : String)
    (price : ℚ) (confidence : ℚ) (atr : Option ℚ)
    (strategy : String) : ApproveResult :=
  let ct := can_trade_symbol env now midnight ticker strategy
  if ct.1 = false then .denied ct.2
  else
    let available := get_available_capital env
    let sizing := calculate_shares env.max_per_trade price confidence
      atr available
    if sizing.shares = 0 then .denied "Position size zero"
    else .approved sizing.shares sizing.notional_value

/-- Whether a position with status OPEN or CLOSING exists for a ticker
(the condition the claim says the risk gate enforces). -/
def open_position_exists (positions : List PositionRow)
    (ticker : String) : Bool :=
  positions.any fun p =>
    decide (p.ticker = ticker) &&
      (decide (p.status = .OPEN) || decide (p.status = .CLOSING))

/-! ## Reconciler (`core/execution/reconciler.py`) -/

/-- A broker position as returned by `get_all_positions`. -/
structure BrokerPos where
  ticker : String
  quantity : ℚ
  avg_entry_price : ℚ
deriving DecidableEq, Repr

/-- A `mismatch_quantity` entry. -/
structure QtyMismatch where
  ticker : String
  local_qty : ℚ
  alpaca_qty : ℚ
  local_id : String
deriving DecidableEq, Repr

/-- A `mismatch_price` entry. -/
structure PriceMismatch where
  ticker : String
  local_price : ℚ
  alpaca_price : ℚ
  local_id : String
deriving DecidableEq, Repr

/-- A `missing_in_local` entry. -/
structure MissingLocal where
  ticker : String
  alpaca_qty : ℚ
  alpaca_price : ℚ
deriving DecidableEq, Repr

/-- The classification buckets built by `reconcile_all`. -/
structure RecResults where
  matched : List String
  mismatch_price : List PriceMismatch
  mismatch_quantity : List QtyMismatch
  missing_in_alpaca : List PositionRow
  missing_in_local : List MissingLocal
deriving DecidableEq, Repr

/-- `price_tolerance_pct` (`Reconciler.__init__`). -/
def price_tolerance_pct : ℚ := 2

/-- `quantity_tolerance` (`Reconciler.__init__`). -/
def quantity_tolerance : ℚ := 0

/-- The classification loops of `reconcile_all` over the OPEN local
positions and the broker's position map. -/
def classify_positions (locals : List PositionRow)
    (alpaca : List BrokerPos) : RecResults :=
  let base : RecResults :=
    { matched := [], mismatch_price := [], mismatch_quantity := []
      missing_in_alpaca := [], missing_in_local := [] }
  let fromLocal := locals.foldl
    (fun res l =>
      match alpaca.find? (fun b => b.ticker = l.ticker) with
      | none =>
          { res with missing_in_alpaca := res.missing_in_alpaca ++ [l] }
      | some b =>
          if |l.quantity - b.quantity| > quantity_tolerance then
            { res with mismatch_quantity := res.mismatch_quantity ++
                [{ ticker := l.ticker, local_qty := l.quantity
                   alpaca_qty := b.quantity, local_id := l.ticket_id }] }
          else
            let price_diff_pct :=
              |l.entry_price - b.avg_entry_price| / l.entry_price * 100
            if price_diff_pct > price_tolerance_pct then
              { res with mismatch_price := res.mismatch_price ++
                  [{ ticker := l.ticker, local_price := l.entry_price
                     alpaca_price := b.avg_entry_price
                     local_id := l.ticket_id }] }
            else { res with matched := res.matched ++ [l.ticker] })
    base
  let missing := alpaca.filter
    (fun b => ¬ locals.any (fun l => l.ticker = b.ticker))
  let missingEntries := missing.map
    (fun b => ({ ticker := b.ticker, alpaca_qty := b.quantity
                 alpaca_price := b.avg_entry_price } : MissingLocal))
  { fromLocal with missing_in_local := missingEntries }

/-- Statuses produced by `Reconciler._determine_status`. -/
inductive RecStatus
  | CRITICAL | WARNING | DEGRADED | OK
deriving DecidableEq, Repr

/-- `Reconciler._determine_status` (first component). -/
def determine_status (res : RecResults) : RecStatus :=
  if res.mismatch_quantity ≠ [] then .CRITICAL
  else if res.missing_in_alpaca ≠ [] then .CRITICAL
  else if res.missing_in_local ≠ [] then .WARNING
  else if res.mismatch_price ≠ [] then .DEGRADED
  else .OK

/-- The price-healing loop of `_auto_reconcile`: overwrite
`entry_price` with the broker's for each `mismatch_price` item. -/
def apply_price_heals (positions : List PositionRow)
    (items : List PriceMismatch) : List PositionRow :=
  items.foldl
    (fun ps item => ps.map fun p =>
      if p.ticket_id = item.local_id then
        { p with entry_price := item.alpaca_price }
      else p)
    positions

/-- The row `_auto_reconcile` inserts for a `missing_in_local` item:
broker quantity and price, strategy `RECONCILED`, status OPEN, and an
`RCL-<ticker>-<timestamp>` ticket.  Columns the INSERT leaves NULL are
`none`/`0` here. -/
def reconciled_row (now : ℚ) (ts : String) (m : MissingLocal) :
    PositionRow :=
  { ticket_id := "RCL-" ++ m.ticker ++ "-" ++ ts
    ticker := m.ticker
    strategy := "RECONCILED"
    entry_time := now
    entry_price := m.alpaca_price
    quantity := m.alpaca_qty
    current_price := none
    stop_loss := 0
    status := .OPEN
    exit_signal := none }

/-- `Reconciler._auto_reconcile`: heal price drift, then insert the
positions the broker has and the local ledger lacks.  `ts` is the
`%Y%m%d%H%M%S` timestamp string of the run. -/
def auto_reconcile (positions : List PositionRow) (res : RecResults)
    (now : ℚ) (ts : String) : List PositionRow :=
  res.missing_in_local.foldl
    (fun ps m => ps ++ [reconciled_row now ts m])
    (apply_price_heals positions res.mismatch_price)

/-- Outcome of `Reconciler.reconcile_all`: the computed status, the
classification, and the `positions` table after any auto-heal. -/
structure ReconcileOutcome where
  status : RecStatus
  results : RecResults
  positions : List PositionRow
deriving DecidableEq, Repr

/-- `Reconciler.reconcile_all` over the full `positions` table (its
local view is the OPEN rows) and the broker's positions.  Auto-heal
runs only for WARNING and DEGRADED statuses. -/
def reconcile_all (positions : List PositionRow)
    (alpaca : List BrokerPos) (now : ℚ) (ts : String) :
    ReconcileOutcome :=
  let locals := positions.filter (fun p => p.status = .OPEN)
  let res := classify_positions locals alpaca
  let status := determine_status res
  let positions' :=
    if status = .WARNING ∨ status = .DEGRADED then
      auto_reconcile positions res now ts
    else positions
  { status := status, results := res, positions := positions' }

/-! ## Sentinel (`core/market/sentinel.py`) -/

/-- Per-check statuses (`ERROR` arises when `quick_check` raises). -/
inductive CheckStatus
  | OK | WARNING | CRITICAL | ERROR
deriving DecidableEq, Repr

/-- The `checks` dict assembled by `Sentinel.check_health`. -/
structure SentinelChecks where
  api_usage : CheckStatus
  api_usage_pct : ℚ
  data_quality : CheckStatus
  errors_today : ℕ
  reconciliation : CheckStatus
  market_conditions : CheckStatus
  kill_switch : CheckStatus
  consecutive_failures : ℕ
deriving DecidableEq, Repr

/-- `Sentinel._check_api_usage` over the per-minute counter. -/
def check_api_usage (calls limit : ℕ) : CheckStatus × ℚ :=
  let pct : ℚ := (calls : ℚ) / (limit : ℚ) * 100
  (if pct > 90 then .CRITICAL else if pct > 75 then .WARNING else .OK, pct)

/-- `Sentinel._check_data_quality` status. -/
def check_data_quality (errors_today max_errors : ℕ) : CheckStatus :=
  if (max_errors : ℚ) < (errors_today : ℚ) then .CRITICAL
  else if (max_errors : ℚ) * (7/10) < (errors_today : ℚ) then .WARNING
  else .OK

/-- `Sentinel._check_reconciliation`: `quick_ok = none` models the
`except` branch.  Returns the status and the (possibly incremented)
consecutive-failure counter. -/
def check_reconciliation (quick_ok : Option Bool)
    (consecutive : ℕ) : CheckStatus × ℕ :=
  match quick_ok with
  | some true => (.OK, consecutive)
  | some false => (.CRITICAL, consecutive + 1)
  | none => (.ERROR, consecutive + 1)

/-- `Sentinel._check_market_conditions` status. -/
def check_market_conditions (regime : String) : CheckStatus :=
  if regime = "CRASH" then .CRITICAL
  else if regime = "BEAR" then .WARNING
  else .OK

/-- `Sentinel._check_kill_switch` status. -/
def check_kill_switch (engaged : Bool) : CheckStatus :=
  if engaged then .CRITICAL else .OK

/-- The `checks` dict built by `check_health` from the sentinel's
inputs; the reconciliation sub-check increments the failure counter
before it is read into the dict. -/
def build_checks (api_calls api_limit : ℕ) (errors_today max_errors : ℕ)
    (quick_ok : Option Bool) (regime : String) (kill_engaged : Bool)
    (consecutive : ℕ) : SentinelChecks :=
  let (api_st, pct) := check_api_usage api_calls api_limit
  let (rec_st, consecutive') := check_reconciliation quick_ok consecutive
  { api_usage := api_st
    api_usage_pct := pct
    data_quality := check_data_quality errors_today max_errors
    errors_today := errors_today
    reconciliation := rec_st
    market_conditions := check_market_conditions regime
    kill_switch := check_kill_switch kill_engaged
    consecutive_failures := consecutive' }

/-- Overall health states. -/
inductive HState
  | RED | YELLOW | GREEN
deriving DecidableEq, Repr

/-- The five dict-valued sub-checks `_determine_health_state` iterates
over (`consecutive_failures` is an `int` and is skipped by the
`isinstance(check, dict)` test). -/
def dict_statuses (c : SentinelChecks) : List CheckStatus :=
  [c.api_usage, c.data_quality, c.reconciliation,
   c.market_conditions, c.kill_switch]

/-- `Sentinel._determine_health_state` (first component). -/
def determine_health_state (c : SentinelChecks)
    (max_consecutive max_errors : ℕ) : HState :=
  if (dict_statuses c).any (· = .CRITICAL) then .RED
  else if max_consecutive ≤ c.consecutive_failures then .RED
  else if (dict_statuses c).any (· = .WARNING) then .YELLOW
  else if c.api_usage_pct > 70 then .YELLOW
  else if (max_errors : ℚ) * (1/2) < (c.errors_today : ℚ) then .YELLOW
  else .GREEN

/-- `Sentinel.check_health` reduced to the health state it computes. -/
def check_health_state (api_calls api_limit errors_today max_errors : ℕ)
    (quick_ok : Option Bool) (regime : String) (kill_engaged : Bool)
    (consecutive max_consecutive : ℕ) : HState :=
  determine_health_state
    (build_checks api_calls api_limit errors_today max_errors quick_ok
      regime kill_engaged consecutive)
    max_consecutive max_errors

/-- `Sentinel.should_trade` (first component): run `check_health`, deny
on an engaged kill switch or a RED state. -/
def should_trade (api_calls api_limit errors_today max_errors : ℕ)
    (quick_ok : Option Bool) (regime : String) (kill_engaged : Bool)
    (consecutive max_consecutive : ℕ) : Bool :=
  let state := check_health_state api_calls api_limit errors_today
    max_errors quick_ok regime kill_engaged consecutive max_consecutive
  if kill_engaged then false
  else if state = .RED then false
  else true

/-! ## Cycle orchestrator (`scripts/main.py`) -/

/-- The operations `TradingBot.run_cycle` can perform, in source order.
`pending_check` stands for `executor.check_pending_orders()`. -/
inductive CycleStep
  | should_trade_check | health_check
  | stop_losses | strategy_exits | pre_close
  | reconcile
  | tier1_scan | tier2_scan | process_entries
  | pending_check
deriving DecidableEq, Repr

/-- The sequence of operations one `run_cycle` performs, as a function
of the sentinel verdict, the health state, and the reconciliation
status: gate on `should_trade`, check health, run the three exit
checks, reconcile (stop on CRITICAL), stop on RED health, then the
health-gated scans and entries. -/
def run_cycle_trace (sentinel_ok : Bool) (health : HState)
    (recon : RecStatus) : List CycleStep :=
  [.should_trade_check] ++
    if ¬ sentinel_ok then [] else
      [.health_check, .stop_losses, .strategy_exits, .pre_close,
        .reconcile] ++
        if recon = .CRITICAL then [] else
          if health = .RED then [] else
            (if health = .GREEN ∨ health = .YELLOW
              then [.tier1_scan] else []) ++
            (if health = .GREEN then [.tier2_scan] else []) ++
            (if health = .GREEN ∨ health = .YELLOW
              then [.process_entries] else [])

/-- `Executor.check_pending_orders`: poll each pending order; filled
orders are recorded and dropped, cancelled/rejected orders dropped.
(Defined for completeness: `run_cycle` never invokes it.) -/
def check_pending_orders (get_order : String → BrokerOrder)
    (pending : List (String × PendingInfo)) :
    List (String × PendingInfo) × List ExecRecord :=
  pending.foldl
    (fun (acc : List (String × PendingInfo) × List ExecRecord) entry =>
      let (remaining, records) := acc
      let (order_id, info) := entry
      let order := get_order order_id
      if order.filled_at then
        (remaining, records ++
          [{ ticket_id := info.ticket_id, ticker := info.ticker
             expected_price := info.expected_price
             actual_price := order.filled_avg_price.getD 0
             expected_quantity := info.quantity
             actual_quantity := order.filled_qty
             order_type := info.order_type
             side := if info.order_type = "LIMIT_EXIT"
               then "SELL" else "BUY" }])
      else if order.canceled_at ∨ order.rejected_at then
        (remaining, records)
      else (remaining ++ [entry], records))
    ([], [])

/-! ## Theorems -/


/-- C8, counterexample: the claimed sizing formula fails when `atr` is
present but zero.  Python treats `atr = 0.0` as falsy, so the code uses
volatility multiplier 1.0 (100 shares at price 10, confidence 50,
capital 10000), while the formula of the claim reads `atr/price = 0 <
0.01` and prescribes multiplier 1.2 (120 shares). -/
theorem c8_counterexample :
    (calculate_shares 2000 10 50 (some 0) 10000).shares = 100 ∧
    spec_shares 2000 10 50 (some 0) 10000 = 120 := by
  constructor <;> norm_num [calculate_shares, spec_shares]

/-- C8, amended: for every price > 0, confidence in [0, 100] and
available capital, with `atr` absent or nonzero, `calculate_shares`
returns exactly floor(min(min(max_per_trade, capital × 0.2) ×
(confidence/100) × vol_mult, max_per_trade) / price), with vol_mult =
0.5 when atr/price > 0.05, 1.2 when atr/price < 0.01, else 1.0 (and
1.0 when atr is absent). -/
theorem c8_amended (max_per_trade price confidence available : ℚ)
    (atr : Option ℚ) (hp : 0 < price)
    (_hc0 : 0 ≤ confidence) (_hc1 : confidence ≤ 100)
    (ha : ∀ a, atr = some a → a ≠ 0) :
    (calculate_shares max_per_trade price confidence atr available).shares =
      spec_shares max_per_trade price confidence atr available := by
  cases atr with
  | none => simp [calculate_shares, spec_shares, hp]
  | some a =>
      have haz : a ≠ 0 := ha a rfl
      simp [calculate_shares, spec_shares, hp, haz]

/-- C8, witness: the amended theorem at price 10, confidence 50,
atr 2, capital 10000 — both sides give 50 shares. -/
theorem c8_amended_witness :
    (calculate_shares 2000 10 50 (some 2) 10000).shares =
      spec_shares 2000 10 50 (some 2) 10000 ∧
    (calculate_shares 2000 10 50 (some 2) 10000).shares = 50 :=
  ⟨c8_amended 2000 10 50 10000 (some 2) (by norm_num) (by norm_num)
      (by norm_num) (by intro a h; cases h; norm_num),
    by norm_num [calculate_shares]⟩

/-- C10: `execute_exit` with a LIMIT order type, a reason other than
STOP_LOSS and no limit price returns FAILED with the error message
"Limit price required for LIMIT exit", submits nothing to the broker,
leaves the pending map unchanged and records no execution-quality
row. -/
theorem c10_limit_exit_guard (submit : OrderReq → BrokerOrder)
    (pending : List (String × PendingInfo)) (ticket_id ticker : String)
    (quantity : ℚ) (order_type reason : String)
    (hm : py_upper order_type ≠ "MARKET") (hr : reason ≠ "STOP_LOSS") :
    execute_exit submit pending ticket_id ticker quantity order_type
        none reason =
      { result := .failed ticket_id "Limit price required for LIMIT exit"
        submitted := [], pending := pending, records := [] } := by
  unfold execute_exit
  rw [if_neg (by rintro (h | h); exacts [hm h, hr h])]

/-- The broker stub for concrete runs: nothing fills. -/
def null_broker : OrderReq → BrokerOrder := fun _ =>
  { id := "", filled_at := false, filled_avg_price := none
    filled_qty := 0, canceled_at := false, rejected_at := false }

/-- C10, witness: a concrete LIMIT exit without a price against a
broker that never fills. -/
theorem c10_witness :
    execute_exit null_broker [] "TKT-1" "ACME" 19 "LIMIT" none "STRATEGY" =
      { result := .failed "TKT-1" "Limit price required for LIMIT exit"
        submitted := [], pending := [], records := [] } :=
  c10_limit_exit_guard _ [] "TKT-1" "ACME" 19 "LIMIT" "STRATEGY"
    (by decide) (by decide)

/-- C6: no cycle ever reaches `executor.check_pending_orders` — the
step is absent from `run_cycle` for every sentinel verdict, health
state and reconciliation status, including the tick that proceeds past
all gates (whose full trace is listed). -/
theorem c6_run_cycle_never_polls_pending :
    run_cycle_trace true .GREEN .OK =
      [.should_trade_check, .health_check, .stop_losses, .strategy_exits,
       .pre_close, .reconcile, .tier1_scan, .tier2_scan,
       .process_entries] ∧
    ∀ ok health recon, CycleStep.pending_check ∉ run_cycle_trace ok health recon := by
  refine ⟨by decide, ?_⟩
  intro ok health recon
  cases ok <;> cases health <;> cases recon <;> decide


/-- C5, counterexample: with every sub-check OK (API usage at 130/180
= 72.2%, warning threshold 75%), no check is Critical or Warning, yet
the roll-up is YELLOW, not GREEN as the claim requires, because of the
extra `usage_pct > 70` branch. -/
theorem c5_counterexample :
    (dict_statuses (build_checks 130 180 0 10 (some true) "NORMAL"
        false 0)).all
      (fun s => decide (s ≠ .CRITICAL) && decide (s ≠ .WARNING)) = true ∧
    determine_health_state
      (build_checks 130 180 0 10 (some true) "NORMAL" false 0) 3 10 =
      .YELLOW := by
  constructor
  · norm_num [build_checks, check_api_usage, check_data_quality,
      check_reconciliation, check_market_conditions, check_kill_switch,
      dict_statuses]
    decide
  · norm_num [determine_health_state, build_checks, check_api_usage,
      check_data_quality, check_reconciliation, check_market_conditions,
      check_kill_switch, dict_statuses]
    all_goals decide

/-- C5, amended: the roll-up is RED iff some sub-check is CRITICAL or
the consecutive-failure counter reached its maximum; YELLOW iff not
RED and (some sub-check is WARNING, or API usage exceeds 70%, or
errors exceed half the daily maximum); GREEN otherwise; and
`should_trade` denies exactly when the computed state is RED or the
kill switch is engaged. -/
theorem c5_amended (c : SentinelChecks) (max_consecutive max_errors : ℕ)
    (api_calls api_limit errors_today maxe : ℕ) (quick_ok : Option Bool)
    (regime : String) (kill : Bool) (consecutive maxc : ℕ) :
    (determine_health_state c max_consecutive max_errors = .RED ↔
      (dict_statuses c).any (· = .CRITICAL) = true ∨
        max_consecutive ≤ c.consecutive_failures) ∧
    (determine_health_state c max_consecutive max_errors = .YELLOW ↔
      ¬((dict_statuses c).any (· = .CRITICAL) = true ∨
          max_consecutive ≤ c.consecutive_failures) ∧
        ((dict_statuses c).any (· = .WARNING) = true ∨
          70 < c.api_usage_pct ∨
          (max_errors : ℚ) * (1/2) < (c.errors_today : ℚ))) ∧
    (determine_health_state c max_consecutive max_errors = .GREEN ↔
      ¬((dict_statuses c).any (· = .CRITICAL) = true ∨
          max_consecutive ≤ c.consecutive_failures) ∧
      ¬((dict_statuses c).any (· = .WARNING) = true ∨
          70 < c.api_usage_pct ∨
          (max_errors : ℚ) * (1/2) < (c.errors_today : ℚ))) ∧
    (should_trade api_calls api_limit errors_today maxe quick_ok regime
        kill consecutive maxc = false ↔
      (check_health_state api_calls api_limit errors_today maxe quick_ok
          regime kill consecutive maxc = .RED ∨ kill = true)) := by
  refine ⟨?_, ?_, ?_, ?_⟩
  · unfold determine_health_state
    split_ifs with h1 h2 h3 h4 h5 <;> simp_all
  · unfold determine_health_state
    split_ifs with h1 h2 h3 h4 h5 <;> simp_all
  · unfold determine_health_state
    split_ifs with h1 h2 h3 h4 h5 <;> simp_all
  · unfold should_trade
    cases kill with
    | true => simp
    | false =>
        by_cases hs : check_health_state api_calls api_limit errors_today
          maxe quick_ok regime false consecutive maxc = .RED <;>
          simp [hs]


/-- Helper: the newest-row fold returns its accumulator or an element
of the list. -/
theorem pick_newer_foldl_mem (l : List SignalRow) (acc : Option SignalRow)
    (row : SignalRow) (h : l.foldl pick_newer acc = some row) :
    acc = some row ∨ row ∈ l := by
  induction l generalizing acc with
  | nil => exact .inl h
  | cons a t ih =>
      rcases ih (pick_newer acc a) h with h' | h'
      · cases acc with
        | none =>
            simp only [pick_newer] at h'
            injection h' with h''
            exact .inr (by rw [← h'']; exact List.mem_cons_self a t)
        | some b =>
            simp only [pick_newer] at h'
            by_cases hb : b.trigger_time < a.trigger_time
            · rw [if_pos hb] at h'
              injection h' with h''
              exact .inr (by rw [← h'']; exact List.mem_cons_self a t)
            · rw [if_neg hb] at h'
              exact .inl h'
      · exact .inr (List.mem_cons_of_mem a h')

/-- Helper: the row `check_confirmation` selects is a KIV row of the
table. -/
theorem newest_kiv_mem (signals : List SignalRow) (ticker strategy : String)
    (row : SignalRow) (h : newest_kiv signals ticker strategy = some row) :
    row ∈ signals ∧ row.status = .KIV := by
  unfold newest_kiv at h
  rcases pick_newer_foldl_mem _ _ _ h with h' | h'
  · cases h'
  · have hm := List.mem_filter.mp h'
    refine ⟨hm.1, ?_⟩
    have hp := hm.2
    simp only [decide_eq_true_eq] at hp
    exact hp.2.2

/-- A terminal (EXPIRED) signal used to exhibit the unguarded updates. -/
def expiredSig : SignalRow :=
  { signal_id := "ACME_RSI_2025101210", ticker := "ACME"
    strategy := "RSI", trigger_time := 0, trigger_price := 10
    rebound_bottom := 10, go_in_price := 11, profit_target := 12
    stop_loss := 9, confidence_score := 75, status := .EXPIRED
    cooldown_until := none }

/-- C2, counterexample: `mark_executed` on a signal in the terminal
state EXPIRED overwrites its status to EXECUTED — terminal states are
not immutable, and EXPIRED → EXECUTED is not among the five permitted
transitions. -/
theorem c2_counterexample :
    expiredSig.status = .EXPIRED ∧
    (mark_executed [expiredSig] "ACME_RSI_2025101210").2 =
      [{ expiredSig with status := .EXECUTED }] := by
  constructor
  · rfl
  · decide

/-- C2, amended: `mark_executed` and `reject_signal` set the status
of every row with the given signal id unconditionally — terminal rows
included — while `check_confirmation` only ever leaves the table
unchanged or moves a KIV row to EXPIRED or CONFIRMED. -/
theorem c2_amended (signals : List SignalRow) (sid reason : String)
    (now current_price : ℚ) (ticker strategy : String) :
    (∀ r ∈ signals, r.signal_id = sid →
      ({ r with status := .EXECUTED } ∈ (mark_executed signals sid).2 ∧
       { r with status := .REJECTED } ∈
         (reject_signal signals sid reason).2)) ∧
    ((check_confirmation signals now ticker strategy current_price).2 =
        signals ∨
      ∃ row, row ∈ signals ∧ row.status = .KIV ∧
        ((check_confirmation signals now ticker strategy
            current_price).2 =
              set_status_by_id signals row.signal_id .EXPIRED ∨
         (check_confirmation signals now ticker strategy
            current_price).2 =
              set_status_by_id signals row.signal_id .CONFIRMED)) := by
  constructor
  · intro r hr hid
    constructor
    · simp only [mark_executed, set_status_by_id, List.mem_map]
      exact ⟨r, hr, by rw [if_pos hid]⟩
    · simp only [reject_signal, set_status_by_id, List.mem_map]
      exact ⟨r, hr, by rw [if_pos hid]⟩
  · unfold check_confirmation
    cases h : newest_kiv signals ticker strategy with
    | none => exact .inl rfl
    | some row =>
        obtain ⟨hmem, hkiv⟩ := newest_kiv_mem _ _ _ _ h
        dsimp only
        by_cases h1 : (now - row.trigger_time) / 3600 > kiv_timeout_hours
        · rw [if_pos h1]
          exact .inr ⟨row, hmem, hkiv, .inl rfl⟩
        · rw [if_neg h1]
          by_cases h2 : 0 < row.rebound_bottom ∧
              row.rebound_bottom * (101/100) ≤ current_price
          · rw [if_pos h2]
            exact .inr ⟨row, hmem, hkiv, .inr rfl⟩
          · rw [if_neg h2]
            exact .inl rfl

/-- C2, witness: the amended theorem applied to a one-row table whose
signal is EXPIRED. -/
theorem c2_amended_witness :
    { expiredSig with status := SignalStatus.EXECUTED } ∈
      (mark_executed [expiredSig] "ACME_RSI_2025101210").2 :=
  (((c2_amended [expiredSig] "ACME_RSI_2025101210" "risk" 0 0 "ACME"
      "RSI").1 expiredSig (by decide) (by decide))).1


/-- A KIV signal used to probe the expiry boundary. -/
def boundarySig : SignalRow :=
  { signal_id := "ACME_RSI_2025101206", ticker := "ACME"
    strategy := "RSI", trigger_time := 0, trigger_price := 10
    rebound_bottom := 10, go_in_price := 102/10
    profit_target := 105/10, stop_loss := 98/10, confidence_score := 75
    status := .KIV, cooldown_until := none }

/-- C9, counterexample: a KIV signal of age exactly `kiv_timeout`
(4 h = 14400 s) is NOT transitioned to EXPIRED — the code tests
`age > timeout` strictly, so `check_confirmation` returns
NOT_CONFIRMED and leaves the row KIV. -/
theorem c9_counterexample :
    (14400 - boundarySig.trigger_time) / 3600 = kiv_timeout_hours ∧
    check_confirmation [boundarySig] 14400 "ACME" "RSI" (1005/100) =
      (.not_confirmed, [boundarySig]) := by
  constructor
  · norm_num [boundarySig, kiv_timeout_hours]
  · norm_num [check_confirmation, newest_kiv, kiv_rows, pick_newer,
      boundarySig, kiv_timeout_hours]

/-- C9, amended: a KIV signal is expired by `check_confirmation`
exactly when its age strictly exceeds `kiv_timeout`; at the boundary
age the result is never EXPIRED and the table is unchanged or the
signal confirmed. -/
theorem c9_amended (signals : List SignalRow) (now : ℚ)
    (ticker strategy : String) (current_price : ℚ) (row : SignalRow)
    (hrow : newest_kiv signals ticker strategy = some row) :
    (kiv_timeout_hours < (now - row.trigger_time) / 3600 →
      check_confirmation signals now ticker strategy current_price =
        (.expired, set_status_by_id signals row.signal_id .EXPIRED)) ∧
    ((now - row.trigger_time) / 3600 = kiv_timeout_hours →
      (check_confirmation signals now ticker strategy
          current_price).1 ≠ .expired ∧
      ((check_confirmation signals now ticker strategy
          current_price).2 = signals ∨
        (check_confirmation signals now ticker strategy
            current_price).2 =
          set_status_by_id signals row.signal_id .CONFIRMED)) := by
  unfold check_confirmation
  rw [hrow]
  dsimp only
  constructor
  · intro h1
    rw [if_pos h1]
  · intro hb
    have h1 : ¬ ((now - row.trigger_time) / 3600 > kiv_timeout_hours) := by
      rw [hb]
      exact lt_irrefl _
    rw [if_neg h1]
    by_cases h2 : 0 < row.rebound_bottom ∧
        row.rebound_bottom * (101/100) ≤ current_price
    · rw [if_pos h2]
      exact ⟨by simp, .inr rfl⟩
    · rw [if_neg h2]
      exact ⟨by simp, .inl rfl⟩

/-- C9, witness: at age 5 h the signal expires; at exactly 4 h it
does not. -/
theorem c9_amended_witness :
    check_confirmation [boundarySig] 18000 "ACME" "RSI" (1005/100) =
      (.expired, set_status_by_id [boundarySig] "ACME_RSI_2025101206"
        .EXPIRED) ∧
    (check_confirmation [boundarySig] 14400 "ACME" "RSI"
        (1005/100)).1 ≠ .expired := by
  constructor
  · exact (c9_amended [boundarySig] 18000 "ACME" "RSI" (1005/100)
      boundarySig (by norm_num [newest_kiv, kiv_rows, pick_newer, boundarySig])).1
      (by norm_num [boundarySig, kiv_timeout_hours])
  · exact ((c9_amended [boundarySig] 14400 "ACME" "RSI" (1005/100)
      boundarySig (by norm_num [newest_kiv, kiv_rows, pick_newer, boundarySig])).2
      (by norm_num [boundarySig, kiv_timeout_hours])).1


/-- Helper: `find?` skips a prefix in which nothing matches. -/
theorem find?_append_of_none {α : Type} (p : α → Bool) (l₁ l₂ : List α)
    (h : l₁.find? p = none) : (l₁ ++ l₂).find? p = l₂.find? p := by
  induction l₁ with
  | nil => rfl
  | cons a t ih =>
      cases hp : p a with
      | true =>
          rw [List.find?_cons_of_pos _ hp] at h
          cases h
      | false =>
          rw [List.find?_cons_of_neg _ (by simp [hp])] at h
          rw [List.cons_append, List.find?_cons_of_neg _ (by simp [hp])]
          exact ih h

/-- C7: two `add_to_kiv` calls with identical inputs in the same
hourly bucket and no active cooldown generate the same deterministic
signal id; the first returns ADDED, the second returns EXISTS with the
row still KIV, the table is unchanged by the second call, and exactly
one KIV row for the pair exists afterwards. -/
theorem c7_kiv_idempotent (signals : List SignalRow) (t1 t2 : Time)
    (ticker strategy : String) (tp rb gp pt sl conf : ℚ)
    (hb : t1.bucket = t2.bucket)
    (hc1 : is_on_cooldown signals t1.secs ticker strategy = false)
    (hc2 : is_on_cooldown signals t2.secs ticker strategy = false)
    (hdup : signals.find? (kiv_duplicate
        (generate_signal_id ticker strategy t1) ticker strategy) = none) :
    (add_to_kiv signals t1 ticker strategy tp rb gp pt sl conf).1 =
        .added (generate_signal_id ticker strategy t1) conf ∧
    generate_signal_id ticker strategy t2 =
        generate_signal_id ticker strategy t1 ∧
    (add_to_kiv
        (add_to_kiv signals t1 ticker strategy tp rb gp pt sl conf).2
        t2 ticker strategy tp rb gp pt sl conf).1 =
      .already_exists .KIV ∧
    (add_to_kiv
        (add_to_kiv signals t1 ticker strategy tp rb gp pt sl conf).2
        t2 ticker strategy tp rb gp pt sl conf).2 =
      (add_to_kiv signals t1 ticker strategy tp rb gp pt sl conf).2 ∧
    (kiv_rows
        (add_to_kiv signals t1 ticker strategy tp rb gp pt sl conf).2
        ticker strategy).length = 1 := by
  have hgid : generate_signal_id ticker strategy t2 =
      generate_signal_id ticker strategy t1 := by
    unfold generate_signal_id
    rw [hb]
  set gid := generate_signal_id ticker strategy t1 with hgid_def
  set row := kiv_row t1 ticker strategy tp rb gp pt sl conf with hrow_def
  have h1 : add_to_kiv signals t1 ticker strategy tp rb gp pt sl conf =
      (.added gid conf, signals ++ [row]) := by
    unfold add_to_kiv
    rw [hc1]
    simp only [Bool.false_eq_true, if_false, hdup]
  have hnotdup : ∀ r ∈ signals, kiv_duplicate gid ticker strategy r = false := by
    intro r hr
    have := List.find?_eq_none.mp hdup r hr
    exact Bool.not_eq_true _ ▸ by simpa using this
  have hrowdup : kiv_duplicate gid ticker strategy row = true := by
    simp [kiv_duplicate, hrow_def, kiv_row]
  have h2 : add_to_kiv (signals ++ [row]) t2 ticker strategy tp rb gp pt
      sl conf = (.already_exists .KIV, signals ++ [row]) := by
    unfold add_to_kiv
    have hcool : is_on_cooldown (signals ++ [row]) t2.secs ticker
        strategy = false := by
      unfold is_on_cooldown at hc2 ⊢
      simp only [List.any_append, hc2, Bool.false_or, List.any_cons,
        List.any_nil, Bool.or_false]
      simp [hrow_def, kiv_row]
    rw [hcool]
    simp only [Bool.false_eq_true, if_false]
    rw [hgid]
    rw [find?_append_of_none _ _ _ hdup]
    rw [List.find?_cons_of_pos _ hrowdup]
    dsimp only
    have : row.status = .KIV := by simp [hrow_def, kiv_row]
    rw [this]
  have hcount : (kiv_rows (signals ++ [row]) ticker strategy).length = 1 := by
    unfold kiv_rows
    rw [List.filter_append]
    have hfil : signals.filter (fun r =>
        decide (r.ticker = ticker ∧ r.strategy = strategy ∧
          r.status = SignalStatus.KIV)) = [] := by
      rw [List.filter_eq_nil]
      intro r hr
      simp only [decide_eq_true_eq]
      rintro ⟨ht, hs, hk⟩
      have hd := hnotdup r hr
      simp [kiv_duplicate, ht, hs, hk] at hd
    rw [hfil]
    simp [hrow_def, kiv_row]
  rw [h1]
  exact ⟨rfl, hgid, by rw [h2], by rw [h2], hcount⟩


/-- C7, witness: a concrete double insertion on an empty table. -/
theorem c7_kiv_idempotent_witness :
    (add_to_kiv
        (add_to_kiv [] ⟨0, "2025101210"⟩ "ACME" "RSI" 10 10 11 12 9
          75).2
        ⟨60, "2025101210"⟩ "ACME" "RSI" 10 10 11 12 9 75).1 =
      .already_exists .KIV ∧
    (kiv_rows
        (add_to_kiv [] ⟨0, "2025101210"⟩ "ACME" "RSI" 10 10 11 12 9
          75).2
        "ACME" "RSI").length = 1 := by
  have h := c7_kiv_idempotent [] ⟨0, "2025101210"⟩ ⟨60, "2025101210"⟩
    "ACME" "RSI" 10 10 11 12 9 75 rfl (by decide) (by decide)
    (by decide)
  exact ⟨h.2.2.1, h.2.2.2.2⟩


/-- An active cooldown row for (ACME, RSI). -/
def cooldownRow : SignalRow :=
  { signal_id := "cooldown_ACME_RSI", ticker := "ACME"
    strategy := "RSI", trigger_time := 0, trigger_price := 0
    rebound_bottom := 0, go_in_price := 0, profit_target := 0
    stop_loss := 0, confidence_score := 0, status := .COOLDOWN
    cooldown_until := some 99999 }

/-- An OPEN position on ACME. -/
def openPos : PositionRow :=
  { ticket_id := "TKT-0001", ticker := "ACME", strategy := "RSI"
    entry_time := 0, entry_price := 10, quantity := 10
    current_price := some 10, stop_loss := 0, status := .OPEN
    exit_signal := none }

/-- A risk environment in which (ACME, RSI) is on cooldown and an OPEN
ACME position exists, but nothing is ignored and limits are clear. -/
def gateEnv : RiskEnv :=
  { ignore_list := [], trade_history := [], positions := [openPos]
    signals := [cooldownRow], total_capital := 10000
    max_per_trade := 2000, daily_loss_limit := 500
    daily_profit_cap := 1000 }

/-- C1, counterexample: `approve_trade` returns APPROVED although the
(ticker, strategy) pair is on cooldown and an OPEN position for the
ticker exists — the risk gate checks neither, and it never calls
`validate_risk`. -/
theorem c1_counterexample :
    approve_trade gateEnv 100 0 "ACME" 10 75 none "RSI" =
      .approved 150 1500 ∧
    is_on_cooldown gateEnv.signals 100 "ACME" "RSI" = true ∧
    open_position_exists gateEnv.positions "ACME" = true := by
  refine ⟨?_, ?_, by decide⟩
  · norm_num [approve_trade, can_trade_symbol, is_ignored,
      limits_can_trade, get_today_pnl, get_available_capital,
      calculate_shares, gateEnv, openPos, cooldownRow]
  · norm_num [is_on_cooldown, gateEnv, cooldownRow]

/-- C1, amended: `approve_trade` returns APPROVED exactly when the
ticker has no active ignore entry whose scope is this strategy or ALL,
the daily limits allow trading, and the sizer yields a nonzero share
count; cooldown, `validate_risk` and existing OPEN/CLOSING positions
are not consulted. -/
theorem c1_amended (env : RiskEnv) (now midnight price confidence : ℚ)
    (atr : Option ℚ) (ticker strategy : String) :
    (∃ sh nv, approve_trade env now midnight ticker price confidence
        atr strategy = .approved sh nv) ↔
      ((match is_ignored env.ignore_list now ticker with
        | some info => ¬ (info.scope = strategy ∨ info.scope = "ALL")
        | none => True) ∧
        (limits_can_trade env.daily_loss_limit env.daily_profit_cap
          env.trade_history env.positions midnight).1 = true ∧
        (calculate_shares env.max_per_trade price confidence atr
          (get_available_capital env)).shares ≠ 0) := by
  unfold approve_trade can_trade_symbol
  cases hig : is_ignored env.ignore_list now ticker with
  | some info =>
      by_cases hsc : info.scope = strategy ∨ info.scope = "ALL"
      · simp [hsc]
      · by_cases hlim : (limits_can_trade env.daily_loss_limit
            env.daily_profit_cap env.trade_history env.positions
            midnight).1 = false
        · simp [hsc, hlim]
        · by_cases hsh : (calculate_shares env.max_per_trade price
              confidence atr (get_available_capital env)).shares = 0
          · simp [hsc, hlim, hsh]
          · simp [hsc, hlim, hsh]
  | none =>
      by_cases hlim : (limits_can_trade env.daily_loss_limit
          env.daily_profit_cap env.trade_history env.positions
          midnight).1 = false
      · simp [hlim]
      · by_cases hsh : (calculate_shares env.max_per_trade price
            confidence atr (get_available_capital env)).shares = 0
        · simp [hlim, hsh]
        · simp [hlim, hsh]


/-- Helper: archiving a position never touches the `signals` table. -/
theorem mark_position_closed_signals (st : MonitorState) (now : ℚ)
    (tk : String) (ep : ℚ) (er : String) :
    ((mark_position_closed st now tk ep er).2).signals = st.signals := by
  unfold mark_position_closed
  cases st.positions.find? (fun p => p.ticket_id = tk) with
  | none => rfl
  | some p => rfl

/-- Helper: one stop-loss iteration never touches the `signals`
table. -/
theorem stop_loss_step_signals (now : ℚ) (prices : String → Option ℚ)
    (submit : OrderReq → BrokerOrder)
    (acc : List TriggeredExit × MonitorState) (p : PositionRow) :
    ((stop_loss_step now prices submit acc p).2).signals =
      ((acc.2).signals) := by
  rcases acc with ⟨trig, st⟩
  unfold stop_loss_step
  cases prices p.ticker with
  | none => rfl
  | some cp =>
      dsimp only
      split_ifs with h
      · cases hres : (execute_exit submit []
            ("TKT-X-" ++ p.ticket_id) p.ticker p.quantity "MARKET"
            none "STOP_LOSS").result with
        | filled tid fp q =>
            dsimp only
            rw [mark_position_closed_signals]
        | pending tid oid => rfl
        | failed tid e => rfl
      · rfl

/-- Helper: the whole stop-loss sweep never touches `signals`. -/
theorem foldl_stop_loss_signals (now : ℚ) (prices : String → Option ℚ)
    (submit : OrderReq → BrokerOrder) (l : List PositionRow)
    (acc : List TriggeredExit × MonitorState) :
    (((l.foldl (stop_loss_step now prices submit) acc)).2).signals =
      (acc.2).signals := by
  induction l generalizing acc with
  | nil => rfl
  | cons a t ih =>
      rw [List.foldl_cons, ih, stop_loss_step_signals]

/-- The spec's stop-loss scenario: ACME bought at 10.21, 19 shares,
stop 3.9%, price now 9.80. -/
def slPos : PositionRow :=
  { ticket_id := "TKT-0002", ticker := "ACME", strategy := "RSI"
    entry_time := 0, entry_price := 1021/100, quantity := 19
    current_price := some (98/10), stop_loss := 39/1000
    status := .OPEN, exit_signal := none }

def slState : MonitorState :=
  { positions := [slPos], trade_history := [], signals := []
    exec_quality := [] }

def slPrices : String → Option ℚ :=
  fun t => if t = "ACME" then some (98/10) else none

def slBroker : OrderReq → BrokerOrder :=
  fun req => { id := "ORD-1", filled_at := true
               filled_avg_price := some (98/10), filled_qty := req.qty
               canceled_at := false, rejected_at := false }

/-- C3: the `signals` table, where cooldowns are stored, is invariant
under `check_stop_losses` for every state — no cooldown is ever set by
an exit — and in the concrete stop-loss scenario the exit does fire:
the position is archived as a LOSS and removed, yet (ACME, RSI) is not
on cooldown afterwards. -/
theorem c3_exit_sets_no_cooldown :
    (∀ (st : MonitorState) (now : ℚ) (prices : String → Option ℚ)
        (submit : OrderReq → BrokerOrder),
      ((check_stop_losses st now prices submit).2).signals =
        st.signals) ∧
    (check_stop_losses slState 500 slPrices slBroker).1 =
      [{ ticket_id := "TKT-0002", ticker := "ACME"
         exit_price := 98/10, reason := "STOP_LOSS" }] ∧
    ((check_stop_losses slState 500 slPrices slBroker).2).positions =
      [] ∧
    (∃ h, ((check_stop_losses slState 500 slPrices
        slBroker).2).trade_history = [h] ∧ h.win_loss = "LOSS" ∧
        h.exit_reason = "STOP_LOSS" ∧ h.ticker = "ACME" ∧
        h.strategy = "RSI") ∧
    is_on_cooldown
      ((check_stop_losses slState 500 slPrices slBroker).2).signals
      500 "ACME" "RSI" = false := by
  refine ⟨?_, ?_⟩
  · intro st now prices submit
    unfold check_stop_losses
    exact foldl_stop_loss_signals now prices submit _ _
  · norm_num [check_stop_losses, stop_loss_step, slState, slPos,
      slPrices, slBroker, execute_exit, py_upper,
      mark_position_closed, is_on_cooldown]


/-- Helper: the insert loop only appends. -/
theorem insert_foldl_sub (now : ℚ) (ts : String)
    (t : List MissingLocal) (acc : List PositionRow) (x : PositionRow)
    (hx : x ∈ acc) :
    x ∈ t.foldl (fun ps m => ps ++ [reconciled_row now ts m]) acc := by
  induction t generalizing acc with
  | nil => exact hx
  | cons a t ih => exact ih _ (List.mem_append_left _ hx)

/-- Helper: every `missing_in_local` item's row is inserted. -/
theorem insert_foldl_mem (now : ℚ) (ts : String)
    (ml : List MissingLocal) (ps : List PositionRow) (m : MissingLocal)
    (hm : m ∈ ml) :
    reconciled_row now ts m ∈
      ml.foldl (fun ps m => ps ++ [reconciled_row now ts m]) ps := by
  induction ml generalizing ps with
  | nil => cases hm
  | cons a t ih =>
      rcases List.mem_cons.mp hm with rfl | hm'
      · exact insert_foldl_sub now ts t _ _
          (List.mem_append_right _ (List.mem_singleton.mpr rfl))
      · rw [List.foldl_cons]
        exact ih _ hm'

/-- Helper: after the price-heal loop every position either carries
some mismatch item's broker price, or is an untouched original. -/
theorem apply_price_heals_mem (items : List PriceMismatch)
    (ps : List PositionRow) (p : PositionRow)
    (hp : p ∈ apply_price_heals ps items) :
    (∃ item ∈ items, item.local_id = p.ticket_id ∧
        p.entry_price = item.alpaca_price) ∨
      (p ∈ ps ∧ ∀ item ∈ items, item.local_id ≠ p.ticket_id) := by
  induction items generalizing ps with
  | nil =>
      refine .inr ⟨hp, ?_⟩
      intro item h
      cases h
  | cons a t ih =>
      rcases ih _ hp with ⟨item, hit, h1, h2⟩ | ⟨hmem, hnone⟩
      · exact .inl ⟨item, List.mem_cons_of_mem _ hit, h1, h2⟩
      · rcases List.mem_map.mp hmem with ⟨q, hq, heq⟩
        by_cases hid : q.ticket_id = a.local_id
        · refine .inl ⟨a, List.mem_cons_self _ _, ?_, ?_⟩
          · rw [← heq, if_pos hid]
            exact hid.symm
          · rw [← heq, if_pos hid]
        · have hqq : p = q := by rw [← heq, if_neg hid]
          subst hqq
          refine .inr ⟨hq, ?_⟩
          intro item hitem
          rcases List.mem_cons.mp hitem with rfl | h'
          · exact fun hc => hid hc.symm
          · exact hnone item h'

/-- C4, amended: the reconciliation ladder is: any quantity mismatch
is CRITICAL with no auto-heal; otherwise any local position missing at
the broker is CRITICAL with no auto-heal; otherwise any broker
position missing locally is WARNING and a new OPEN row with the broker
quantity and price, strategy RECONCILED and an RCL ticket is inserted;
otherwise any price drift beyond 2% is DEGRADED and each healed row
carries the broker price of its mismatch entry. -/
theorem c4_amended (positions : List PositionRow)
    (alpaca : List BrokerPos) (now : ℚ) (ts : String) :
    ((reconcile_all positions alpaca now ts).results.mismatch_quantity
        ≠ [] →
      (reconcile_all positions alpaca now ts).status = .CRITICAL ∧
      (reconcile_all positions alpaca now ts).positions = positions) ∧
    ((reconcile_all positions alpaca now ts).results.mismatch_quantity
        = [] →
      (reconcile_all positions alpaca now ts).results.missing_in_alpaca
        ≠ [] →
      (reconcile_all positions alpaca now ts).status = .CRITICAL ∧
      (reconcile_all positions alpaca now ts).positions = positions) ∧
    ((reconcile_all positions alpaca now ts).results.mismatch_quantity
        = [] →
      (reconcile_all positions alpaca now ts).results.missing_in_alpaca
        = [] →
      (reconcile_all positions alpaca now ts).results.missing_in_local
        ≠ [] →
      (reconcile_all positions alpaca now ts).status = .WARNING ∧
      ∀ m ∈ (reconcile_all positions alpaca now
          ts).results.missing_in_local,
        reconciled_row now ts m ∈
          (reconcile_all positions alpaca now ts).positions) ∧
    ((reconcile_all positions alpaca now ts).results.mismatch_quantity
        = [] →
      (reconcile_all positions alpaca now ts).results.missing_in_alpaca
        = [] →
      (reconcile_all positions alpaca now ts).results.missing_in_local
        = [] →
      (reconcile_all positions alpaca now ts).results.mismatch_price
        ≠ [] →
      (reconcile_all positions alpaca now ts).status = .DEGRADED ∧
      ∀ p ∈ (reconcile_all positions alpaca now ts).positions,
        (∃ item ∈ (reconcile_all positions alpaca now
            ts).results.mismatch_price,
          item.local_id = p.ticket_id ∧
            p.entry_price = item.alpaca_price) ∨
        (p ∈ positions ∧
          ∀ item ∈ (reconcile_all positions alpaca now
              ts).results.mismatch_price,
            item.local_id ≠ p.ticket_id)) := by
  unfold reconcile_all
  dsimp only
  set res := classify_positions
    (positions.filter (fun p => p.status = PosStatus.OPEN)) alpaca
    with hres
  refine ⟨?_, ?_, ?_, ?_⟩
  · intro hmq
    unfold determine_status
    rw [if_pos hmq]
    exact ⟨rfl, by rw [if_neg (by rintro (h | h) <;> simp at h)]⟩
  · intro hmq hma
    unfold determine_status
    rw [if_neg (by simp [hmq]), if_pos hma]
    exact ⟨rfl, by rw [if_neg (by rintro (h | h) <;> simp at h)]⟩
  · intro hmq hma hml
    unfold determine_status
    rw [if_neg (by simp [hmq]), if_neg (by simp [hma]), if_pos hml]
    refine ⟨rfl, ?_⟩
    intro m hm
    rw [if_pos (Or.inl rfl)]
    unfold auto_reconcile
    exact insert_foldl_mem now ts _ _ m hm
  · intro hmq hma hml hmp
    unfold determine_status
    rw [if_neg (by simp [hmq]), if_neg (by simp [hma]),
      if_neg (by simp [hml]), if_pos hmp]
    refine ⟨rfl, ?_⟩
    intro p hp
    rw [if_pos (Or.inr rfl)] at hp
    unfold auto_reconcile at hp
    rw [hml] at hp
    exact apply_price_heals_mem _ _ _ hp


/-- A local OPEN position the broker does not have. -/
def rcLocal : PositionRow :=
  { ticket_id := "TKT-0003", ticker := "XLOC", strategy := "RSI"
    entry_time := 0, entry_price := 10, quantity := 19
    current_price := none, stop_loss := 0, status := .OPEN
    exit_signal := none }

/-- A broker position the local ledger does not have. -/
def rcBroker : List BrokerPos :=
  [{ ticker := "YBRK", quantity := 5, avg_entry_price := 20 }]

/-- C4, counterexample: with no quantity mismatch and a broker
position missing locally, the claim requires a RECONCILED insert; the
code instead reports CRITICAL and heals nothing, because a local
position missing at the broker takes precedence. -/
theorem c4_counterexample :
    (reconcile_all [rcLocal] rcBroker 0 "20251012100000").results.mismatch_quantity = [] ∧
    (reconcile_all [rcLocal] rcBroker 0 "20251012100000").results.missing_in_local ≠ [] ∧
    (reconcile_all [rcLocal] rcBroker 0 "20251012100000").status = .CRITICAL ∧
    (reconcile_all [rcLocal] rcBroker 0 "20251012100000").positions = [rcLocal] := by
  simp +decide [reconcile_all, classify_positions, determine_status,
    quantity_tolerance, price_tolerance_pct, rcLocal, rcBroker]
  all_goals norm_num

/-- A (local, broker) pair with quantity drift. -/
def qmLocal : PositionRow :=
  { ticket_id := "TKT-0004", ticker := "ZQ", strategy := "RSI"
    entry_time := 0, entry_price := 10, quantity := 19
    current_price := none, stop_loss := 0, status := .OPEN
    exit_signal := none }

def qmBroker : BrokerPos :=
  { ticker := "ZQ", quantity := 10, avg_entry_price := 10 }

/-- A (local, broker) pair with 20% price drift. -/
def pdLocal : PositionRow :=
  { ticket_id := "TKT-0005", ticker := "PD", strategy := "RSI"
    entry_time := 0, entry_price := 10, quantity := 19
    current_price := none, stop_loss := 0, status := .OPEN
    exit_signal := none }

def pdBroker : BrokerPos :=
  { ticker := "PD", quantity := 19, avg_entry_price := 12 }

/-- C4, witness: all four ladder branches at concrete inputs. -/
theorem c4_amended_witness :
    ((reconcile_all [qmLocal] [qmBroker] 0 "t").status = .CRITICAL ∧
      (reconcile_all [qmLocal] [qmBroker] 0 "t").positions =
        [qmLocal]) ∧
    ((reconcile_all [rcLocal] [] 0 "t").status = .CRITICAL ∧
      (reconcile_all [rcLocal] [] 0 "t").positions = [rcLocal]) ∧
    ((reconcile_all [] rcBroker 0 "t").status = .WARNING ∧
      ∀ m ∈ (reconcile_all [] rcBroker 0 "t").results.missing_in_local,
        reconciled_row 0 "t" m ∈
          (reconcile_all [] rcBroker 0 "t").positions) ∧
    ((reconcile_all [pdLocal] [pdBroker] 0 "t").status = .DEGRADED ∧
      ∀ p ∈ (reconcile_all [pdLocal] [pdBroker] 0 "t").positions,
        (∃ item ∈ (reconcile_all [pdLocal] [pdBroker] 0
            "t").results.mismatch_price,
          item.local_id = p.ticket_id ∧
            p.entry_price = item.alpaca_price) ∨
        (p ∈ [pdLocal] ∧
          ∀ item ∈ (reconcile_all [pdLocal] [pdBroker] 0
              "t").results.mismatch_price,
            item.local_id ≠ p.ticket_id)) :=
  ⟨(c4_amended [qmLocal] [qmBroker] 0 "t").1
      (by simp +decide [reconcile_all, classify_positions, quantity_tolerance, price_tolerance_pct, qmLocal, qmBroker] <;> norm_num),
    (c4_amended [rcLocal] [] 0 "t").2.1
      (by simp +decide [reconcile_all, classify_positions, quantity_tolerance, price_tolerance_pct, rcLocal] <;> norm_num)
      (by simp +decide [reconcile_all, classify_positions, quantity_tolerance, price_tolerance_pct, rcLocal] <;> norm_num),
    (c4_amended [] rcBroker 0 "t").2.2.1
      (by simp +decide [reconcile_all, classify_positions, quantity_tolerance, price_tolerance_pct, rcBroker] <;> norm_num)
      (by simp +decide [reconcile_all, classify_positions, quantity_tolerance, price_tolerance_pct, rcBroker] <;> norm_num)
      (by simp +decide [reconcile_all, classify_positions, quantity_tolerance, price_tolerance_pct, rcBroker] <;> norm_num),
    (c4_amended [pdLocal] [pdBroker] 0 "t").2.2.2
      (by simp +decide [reconcile_all, classify_positions, quantity_tolerance, price_tolerance_pct, pdLocal, pdBroker] <;> norm_num)
      (by simp +decide [reconcile_all, classify_positions, quantity_tolerance, price_tolerance_pct, pdLocal, pdBroker] <;> norm_num)
      (by simp +decide [reconcile_all, classify_positions, quantity_tolerance, price_tolerance_pct, pdLocal, pdBroker] <;> norm_num)
      (by simp +decide [reconcile_all, classify_positions, quantity_tolerance, price_tolerance_pct, pdLocal, pdBroker] <;> norm_num)⟩

end TradeBot
